/-
Verification of the link-classification and new-post pipeline of
`watch_pintofview.py` (substack-watcher).

The Python source is shallowly embedded: pure functions become Lean
functions, the stdlib HTML tokenizer is modelled as an executable
tokenizer over strings, and the `main` run is modelled as a pure function
from the loaded state and the (externally produced) fetch/parse outcome
to the run's observable effects.
-/
import Mathlib

namespace SubstackWatcher

/-! ## String helpers

Python `sub in s` is substring containment; Python `str.lower` on the
ASCII range is `Char.toLower`.  All substrings the classifier tests are
ASCII, so ASCII lowering is a faithful model here. -/

/-- Test `startsWithCh pat cs`: true when `pat` is an initial segment of `cs`. -/
def startsWithCh : List Char → List Char → Bool
  | [], _ => true
  | _ :: _, [] => false
  | p :: ps, c :: cs => p == c && startsWithCh ps cs

/-- Test `containsCh pat cs`: true when `pat` occurs contiguously in `cs`. -/
def containsCh (pat : List Char) : List Char → Bool
  | [] => startsWithCh pat []
  | c :: cs => startsWithCh pat (c :: cs) || containsCh pat cs

/-- Python substring containment `pat in s`. -/
def strContains (s pat : String) : Bool :=
  containsCh pat.toList s.toList

/-- Python `str.lower`, restricted to the ASCII range (all tokens the
classifier compares against are ASCII). -/
def pyLower (s : String) : String :=
  String.mk (s.toList.map Char.toLower)

/-! ## Classifier (`is_ticketing_link`, source lines 66–134) -/

/-- Constant `KNOWN_TICKETING_DOMAINS` from the source. -/
def KNOWN_TICKETING_DOMAINS : List String :=
  ["eventbrite", "ticket", "lu.ma", "ra.co", "razorpay.com", "bookmyshow"]

/-- Constant `TICKET_KEYWORDS` from the source. -/
def TICKET_KEYWORDS : List String :=
  ["ticket", "book", "rsvp", "register"]

/-- The self-referential exclusion test of `is_ticketing_link`
(line 120): both substack tokens present in the lower-cased URL. -/
def selfRefExcluded (urlLower : String) : Bool :=
  strContains urlLower "substack.com" && strContains urlLower "pintofviewclub"

/-- The social-domain exclusion test of `is_ticketing_link` (line 122). -/
def socialExcluded (urlLower : String) : Bool :=
  strContains urlLower "facebook.com" || strContains urlLower "twitter.com" ||
  strContains urlLower "instagram.com" || strContains urlLower "linkedin.com"

/-- Function `is_ticketing_link(url)` from the source (lines 116–134). -/
def is_ticketing_link (url : String) : Bool :=
  let urlLower := pyLower url
  if selfRefExcluded urlLower then false
  else if socialExcluded urlLower then false
  else if KNOWN_TICKETING_DOMAINS.any (fun d => strContains urlLower d) then true
  else if TICKET_KEYWORDS.any (fun k => strContains urlLower k) then true
  else false

/-! ## HTML tokenizer

`LinkExtractor` in the source subclasses `html.parser.HTMLParser` and reacts
to start-tag events.  The tokenizer below models that parser's event stream:
start tags with lower-cased tag/attribute names and entity-unescaped
attribute values, end tags, and text runs; comments, declarations and
processing instructions are consumed silently (the extractor ignores them);
an unterminated construct at end of input produces no event (the parser
buffers it waiting for more input that never comes, since the source calls
only `feed`, never `close`). -/

/-- Whitespace as used by the HTML parser's tokenization. -/
def isHtmlSpace (c : Char) : Bool :=
  c == ' ' || c == '\t' || c == '\n' || c == '\r' || c == '\x0c' || c == '\x0b'

/-- Characters allowed to continue a tag name (tolerant tokenization:
anything but whitespace, `/` and `>`). -/
def isTagNameChar (c : Char) : Bool :=
  !(isHtmlSpace c) && c != '/' && c != '>'

/-- Characters allowed in an attribute name. -/
def isAttrNameChar (c : Char) : Bool :=
  !(isHtmlSpace c) && c != '/' && c != '>' && c != '='

/-- Lower-case a character list and pack it into a string. -/
def lowerStr (cs : List Char) : String :=
  String.mk (cs.map Char.toLower)

/-- Replace the common named/numeric character references, as the parser
does to attribute values (modelled for the references relevant here). -/
def unescapeCh : List Char → List Char
  | [] => []
  | '&' :: 'a' :: 'm' :: 'p' :: ';' :: rest => '&' :: unescapeCh rest
  | '&' :: 'l' :: 't' :: ';' :: rest => '<' :: unescapeCh rest
  | '&' :: 'g' :: 't' :: ';' :: rest => '>' :: unescapeCh rest
  | '&' :: 'q' :: 'u' :: 'o' :: 't' :: ';' :: rest => '"' :: unescapeCh rest
  | '&' :: '#' :: '3' :: '9' :: ';' :: rest => '\'' :: unescapeCh rest
  | c :: rest => c :: unescapeCh rest

/-- Split a character list at the first `>`, returning the part before it
and the remainder after it; `none` when no `>` occurs. -/
def splitAtGt : List Char → Option (List Char × List Char)
  | [] => none
  | '>' :: rest => some ([], rest)
  | c :: rest =>
    match splitAtGt rest with
    | some (b, a) => some (c :: b, a)
    | none => none

/-- Drop everything up to and including the first `-->`;
`none` when the comment never closes. -/
def splitAtCommentEnd : List Char → Option (List Char)
  | [] => none
  | '-' :: '-' :: '>' :: rest => some rest
  | _ :: rest => splitAtCommentEnd rest

/-- One parser event. -/
inductive Tok where
  | startTag (name : String) (attrs : List (String × Option String))
  | endTag (name : String)
  | text (s : String)
  deriving Repr, DecidableEq

/-- Parse the attribute section of a start tag, ending at `>` or `/>`.
Attribute names are lower-cased; a missing value is `none` (the parser
reports `None`); quoted and unquoted values are supported and values are
unescaped.  Returns `none` when the tag never closes (the event is then
never delivered). -/
def parseAttrsAux : Nat → List Char → List (String × Option String) →
    Option (List (String × Option String) × List Char)
  | 0, _, _ => none
  | fuel + 1, cs, acc =>
    match cs.dropWhile isHtmlSpace with
    | [] => none
    | '>' :: rest => some (acc.reverse, rest)
    | '/' :: '>' :: rest => some (acc.reverse, rest)
    | '/' :: rest => parseAttrsAux fuel rest acc
    | c :: rest =>
      match (c :: rest).span isAttrNameChar with
      | ([], _) => parseAttrsAux fuel rest acc
      | (nameCs, rest1) =>
        let name := lowerStr nameCs
        match rest1.dropWhile isHtmlSpace with
        | '=' :: rest2 =>
          match rest2.dropWhile isHtmlSpace with
          | '"' :: vrest =>
            match vrest.span (fun ch => ch != '"') with
            | (v, _ :: r2) =>
              parseAttrsAux fuel r2 ((name, some (String.mk (unescapeCh v))) :: acc)
            | (_, []) => none
          | '\'' :: vrest =>
            match vrest.span (fun ch => ch != '\'') with
            | (v, _ :: r2) =>
              parseAttrsAux fuel r2 ((name, some (String.mk (unescapeCh v))) :: acc)
            | (_, []) => none
          | vrest =>
            match vrest.span (fun ch => !(isHtmlSpace ch) && ch != '>') with
            | (v, r) =>
              parseAttrsAux fuel r ((name, some (String.mk (unescapeCh v))) :: acc)
        | rest2 => parseAttrsAux fuel rest2 ((name, none) :: acc)

/-- The tokenization loop.  Each step consumes at least one character, so
`fuel = length + 1` always suffices. -/
def tokenizeAux : Nat → List Char → List Tok
  | 0, _ => []
  | _ + 1, [] => []
  | fuel + 1, '<' :: rest =>
    match rest with
    | [] => []
    | '/' :: rest2 =>
      match splitAtGt rest2 with
      | some (inner, rest3) =>
        Tok.endTag (lowerStr (inner.takeWhile isTagNameChar)) :: tokenizeAux fuel rest3
      | none => []
    | '!' :: '-' :: '-' :: rest2 =>
      match splitAtCommentEnd rest2 with
      | some rest3 => tokenizeAux fuel rest3
      | none => []
    | '!' :: rest2 =>
      match splitAtGt rest2 with
      | some (_, rest3) => tokenizeAux fuel rest3
      | none => []
    | '?' :: rest2 =>
      match splitAtGt rest2 with
      | some (_, rest3) => tokenizeAux fuel rest3
      | none => []
    | c :: _ =>
      if c.isAlpha then
        match rest.span isTagNameChar with
        | (nameCs, rest2) =>
          match parseAttrsAux (rest2.length + 1) rest2 [] with
          | some (attrs, rest3) => Tok.startTag (lowerStr nameCs) attrs :: tokenizeAux fuel rest3
          | none => []
      else
        Tok.text "<" :: tokenizeAux fuel rest
  | fuel + 1, cs =>
    match cs.span (fun ch => ch != '<') with
    | (txt, rest) => Tok.text (String.mk txt) :: tokenizeAux fuel rest

/-- Tokenize an HTML string into the parser's event stream. -/
def tokenize (s : String) : List Tok :=
  tokenizeAux (s.toList.length + 1) s.toList

/-! ## `LinkExtractor` (source lines 82–98) and
`extract_ticket_link` (lines 136–144) -/

/-- The `for attr, val in attrs: if attr == "href": href = val` loop of
`handle_starttag`: the value of the last `href` attribute, if any. -/
def lastHrefAttr (attrs : List (String × Option String)) : Option String :=
  attrs.foldl (fun acc p => if p.1 == "href" then p.2 else acc) none

/-- Python truthiness of the captured `href` (`if href:`): both `None`
and the empty string are falsy. -/
def pyTruthyStr : Option String → Bool
  | some v => v != ""
  | none => false

/-- Method `LinkExtractor.handle_starttag`: on an `a` start tag, append the last
`href` value to `self.links` when it is truthy. -/
def handle_starttag (links : List String) (tag : String)
    (attrs : List (String × Option String)) : List String :=
  if tag == "a" then
    match lastHrefAttr attrs with
    | some v => if v != "" then links ++ [v] else links
    | none => links
  else links

/-- The sequence `parser.links` after `parser.feed(body_html)`: fold the event stream through
the extractor's start-tag handler. -/
def extract_links (html : String) : List String :=
  (tokenize html).foldl
    (fun ls t =>
      match t with
      | Tok.startTag n a => handle_starttag ls n a
      | _ => ls) []

/-- The `for link in parser.links: if is_ticketing_link(link): return link`
loop of `extract_ticket_link`. -/
def firstTicket : List String → Option String
  | [] => none
  | l :: ls => if is_ticketing_link l then some l else firstTicket ls

/-- Function `extract_ticket_link(body_html)` from the source (lines 136–144). -/
def extract_ticket_link (body_html : String) : Option String :=
  firstTicket (extract_links body_html)

/-! ## Persisted state (`state.json`) and `main`

`load_state` yields a JSON object (a string-keyed record); `main` reads
`state.get("last_post_id")`, compares it to the freshly fetched guid, and on
a new post mutates exactly the two keys `last_post_id` and
`last_published_at` before `save_state`.  The record is modelled as an
association list with unique keys; `setKey` is dict assignment. -/

/-- A JSON scalar stored in `state.json`. -/
inductive JVal where
  | str (s : String)
  | num (n : Int)
  | boolV (b : Bool)
  | null
  deriving Repr, DecidableEq

/-- Python truthiness of `state.get(k)` (`None` when the key is missing). -/
def pyTruthyJ : Option JVal → Bool
  | none => false
  | some (JVal.str s) => s != ""
  | some (JVal.num n) => n != 0
  | some (JVal.boolV b) => b
  | some JVal.null => false

/-- Python `current_id == last_post_id`, where `current_id` is the guid
text (a string or `None`) and `last_post_id` is `state.get(...)`. -/
def pyEqIdJ : Option String → Option JVal → Bool
  | some s, some (JVal.str t) => s == t
  | none, some JVal.null => true
  | none, none => true
  | _, _ => false

/-- Dict access `state.get(k)` on an association-list record. -/
def getKey (st : List (String × JVal)) (k : String) : Option JVal :=
  match st with
  | [] => none
  | (k', v) :: rest => if k' == k then some v else getKey rest k

/-- Dict assignment `st[k] = v` on an association-list record. -/
def setKey (st : List (String × JVal)) (k : String) (v : JVal) :
    List (String × JVal) :=
  match st with
  | [] => [(k, v)]
  | (k', v') :: rest => if k' == k then (k, v) :: rest else (k', v') :: setKey rest k v

/-- Wrap an optional string as the JSON value Python would serialize
(`None` becomes `null`). -/
def jOfOpt : Option String → JVal
  | some s => JVal.str s
  | none => JVal.null

/-- An XML element as `xml.etree.ElementTree` exposes it: a tag, the
`.text` field (`None` when the element has no leading character data —
parsing never produces an empty-string `.text`), and child elements. -/
inductive XNode where
  | elem (tag : String) (text : Option String) (children : List XNode)

/-- The element's tag. -/
def XNode.tagOf : XNode → String
  | XNode.elem t _ _ => t

/-- The element's `.text`. -/
def XNode.textOf : XNode → Option String
  | XNode.elem _ tx _ => tx

/-- The element's children. -/
def XNode.childrenOf : XNode → List XNode
  | XNode.elem _ _ cs => cs

/-- Model of `element.find(tag)`: the first direct child with the given tag. -/
def xfind (e : XNode) (tag : String) : Option XNode :=
  e.childrenOf.find? (fun c => c.tagOf == tag)

/-- The namespace-expanded tag that `latest_item.find` with the `content` namespace map looks up. -/
def contentEncodedTag : String :=
  "\x7bhttp://purl.org/rss/1.0/modules/content/\x7dencoded"

/-- The outcome of `fetch_feed()` followed by `ET.fromstring`:
`failed` when `fetch_feed` returned `None` or empty content
(`if not feed_content: return`), `malformed` when `ET.fromstring` raised
`ET.ParseError` (caught at line 284), `wellFormed root` otherwise. -/
inductive FetchResult where
  | failed
  | malformed
  | wellFormed (root : XNode)

/-- The three email environment variables; `None` or empty is "not set". -/
structure Creds where
  address : Option String
  appPassword : Option String
  recipient : Option String
  deriving Repr, DecidableEq

/-- The check `if not EMAIL_ADDRESS or not EMAIL_APP_PASSWORD or not EMAIL_TO`. -/
def credsSet (c : Creds) : Bool :=
  pyTruthyStr c.address && pyTruthyStr c.appPassword && pyTruthyStr c.recipient

/-- What `send_email` did: skipped for missing credentials, delivered, or
caught a delivery exception (`except Exception` at line 170). -/
inductive EmailOutcome where
  | skippedNoCreds
  | sent
  | failedCaught
  deriving Repr, DecidableEq

/-- Function `send_email` (source lines 146–171): never raises; delivery failure is
caught inside the function.  `smtpOk` stands for the external SMTP world
(login and send succeed). -/
def send_email (creds : Creds) (smtpOk : Bool) : EmailOutcome :=
  if !(credsSet creds) then EmailOutcome.skippedNoCreds
  else if smtpOk then EmailOutcome.sent
  else EmailOutcome.failedCaught

/-- The observable effects of one completed run: `notified` holds the
ticket-link argument and outcome of the `send_email` call when one was
made; `saved` holds the record passed to `save_state` when one was
written. -/
structure RunResult where
  notified : Option (Option String × EmailOutcome)
  saved : Option (List (String × JVal))
  deriving Repr, DecidableEq

/-- A run either completes (possibly doing nothing) or dies on an uncaught
exception — `AttributeError` from `latest_item.find(...).text` when a
required feed field is missing, which `except ET.ParseError` does not
catch. -/
inductive RunOutcome where
  | ok (r : RunResult)
  | attrError
  deriving Repr, DecidableEq

/-- The value `body_html` as computed at source lines 252–261: the text of
`content:encoded` when that element exists, else the text of
`description` when it exists, else the empty string. -/
def bodyHtmlOf (item : XNode) : Option String :=
  match xfind item contentEncodedTag with
  | some ce => ce.textOf
  | none =>
    match xfind item "description" with
    | some d => d.textOf
    | none => some ""

/-- The value `ticket_link` as computed at source lines 263–265: extraction runs
only when `body_html` is truthy. -/
def ticketLinkOf (item : XNode) : Option String :=
  if pyTruthyStr (bodyHtmlOf item) then
    extract_ticket_link ((bodyHtmlOf item).getD "")
  else none

/-- The record passed to `save_state` (source lines 280–282). -/
def savedState (st : List (String × JVal)) (currentId pubDate : Option String) :
    List (String × JVal) :=
  setKey (setKey st "last_post_id" (jOfOpt currentId))
    "last_published_at" (jOfOpt pubDate)

/-- Function `main()` (source lines 210–285) as a function of the loaded state, the
fetch/parse outcome and the external email world. -/
def runMain (st : List (String × JVal)) (fetch : FetchResult)
    (creds : Creds) (smtpOk : Bool) : RunOutcome :=
  match fetch with
  | FetchResult.failed => RunOutcome.ok ⟨none, none⟩
  | FetchResult.malformed => RunOutcome.ok ⟨none, none⟩
  | FetchResult.wellFormed root =>
    match xfind root "channel" with
    | none => RunOutcome.ok ⟨none, none⟩
    | some channel =>
      match xfind channel "item" with
      | none => RunOutcome.ok ⟨none, none⟩
      | some item =>
        match xfind item "title" with
        | none => RunOutcome.attrError
        | some _titleEl =>
          match xfind item "link" with
          | none => RunOutcome.attrError
          | some _linkEl =>
            match xfind item "pubDate" with
            | none => RunOutcome.attrError
            | some pubEl =>
              match xfind item "guid" with
              | none => RunOutcome.attrError
              | some guidEl =>
                if pyTruthyJ (getKey st "last_post_id")
                    && pyEqIdJ guidEl.textOf (getKey st "last_post_id") then
                  RunOutcome.ok ⟨none, none⟩
                else
                  RunOutcome.ok
                    ⟨some (ticketLinkOf item, send_email creds smtpOk),
                     some (savedState st guidEl.textOf pubEl.textOf)⟩

/-! ## Spec-side characterizations

These definitions follow the specification's wording, to be compared with
the embedded source functions above. -/

/-- Does a token start an `a` element? -/
def isAnchorStart : Tok → Bool
  | Tok.startTag n _ => n == "a"
  | _ => false

/-- The href contributed by one token: for an `a` start tag, the last
`href` attribute value when present and non-empty. -/
def anchorContribution : Tok → Option String
  | Tok.startTag n attrs =>
    if n == "a" then
      match lastHrefAttr attrs with
      | some v => if v != "" then some v else none
      | none => none
    else none
  | _ => none

/-- The ordered hrefs of the anchor start tags of an event stream. -/
def anchorHrefs (toks : List Tok) : List String :=
  toks.filterMap anchorContribution

/-! ## Helper lemmas -/

/-- The source's first-match loop is `List.find?`. -/
theorem firstTicket_eq_find (ls : List String) :
    firstTicket ls = ls.find? is_ticketing_link := by
  induction ls with
  | nil => rfl
  | cons l ls ih =>
    cases h : is_ticketing_link l <;> simp [firstTicket, List.find?_cons, h, ih]

/-- One start-tag step of the extractor appends that tag's contribution. -/
theorem handle_starttag_append (links : List String) (n : String)
    (a : List (String × Option String)) :
    handle_starttag links n a = links ++ (anchorContribution (Tok.startTag n a)).toList := by
  simp only [handle_starttag, anchorContribution]
  by_cases hn : n == "a"
  · simp only [hn, if_pos]
    cases lastHrefAttr a with
    | none => simp
    | some v =>
      by_cases hv : v != ""
      · simp [hv]
      · simp [hv]
  · simp [hn]

/-- Folding the extractor over an event stream appends the anchor hrefs. -/
theorem foldl_handle_eq (toks : List Tok) (links : List String) :
    toks.foldl
      (fun ls t =>
        match t with
        | Tok.startTag n a => handle_starttag ls n a
        | _ => ls) links
      = links ++ anchorHrefs toks := by
  induction toks generalizing links with
  | nil => simp [anchorHrefs]
  | cons t ts ih =>
    cases t with
    | startTag n a =>
      simp only [List.foldl_cons, anchorHrefs, List.filterMap_cons]
      rw [ih, handle_starttag_append]
      cases anchorContribution (Tok.startTag n a) with
      | none => simp [anchorHrefs]
      | some v => simp [anchorHrefs]
    | endTag n =>
      simp only [List.foldl_cons, anchorHrefs, List.filterMap_cons, anchorContribution]
      exact ih links
    | text s =>
      simp only [List.foldl_cons, anchorHrefs, List.filterMap_cons, anchorContribution]
      exact ih links

/-- The function `extract_links` produces exactly the anchor hrefs of the token stream. -/
theorem extract_links_eq_anchorHrefs (html : String) :
    extract_links html = anchorHrefs (tokenize html) := by
  simp [extract_links, foldl_handle_eq]

/-! ## Claims C1–C4 -/

/-- C1: `extractTicketLink` returns the first extracted link in document
order that classifies as a ticket link; it is absent when no extracted
link classifies or when the HTML is empty; and on the spec's example a
qualifying link later in the document is returned when the earlier link
fails classification. -/
theorem extract_ticket_link_first_qualifying :
    (∀ html : String,
      extract_ticket_link html = (extract_links html).find? is_ticketing_link)
    ∧ (∀ html : String,
        (∀ l ∈ extract_links html, is_ticketing_link l = false) →
        extract_ticket_link html = none)
    ∧ extract_ticket_link "" = none
    ∧ extract_ticket_link
        "<p>Visit us</p><a href=\"https://facebook.com/page\">FB</a><a href=\"https://www.bookmyshow.com/event/1\">Tickets</a>"
        = some "https://www.bookmyshow.com/event/1" := by
  refine ⟨fun html => ?_, fun html h => ?_, by decide, by decide⟩
  · unfold extract_ticket_link
    rw [firstTicket_eq_find]
  · unfold extract_ticket_link
    rw [firstTicket_eq_find]
    exact List.find?_eq_none.mpr fun l hl => by simp [h l hl]

/-- Witness for C1: on HTML whose only link does not classify,
the result is absent. -/
theorem extract_ticket_link_first_qualifying_witness :
    extract_ticket_link "<a href=\"https://twitter.com/x\">t</a>" = none :=
  extract_ticket_link_first_qualifying.2.1
    "<a href=\"https://twitter.com/x\">t</a>" (by decide)

/-- C2: for URLs passing both exclusions, classification is: true when the
lower-cased URL contains one of the ticketing-platform substrings,
otherwise true when it contains one of the keyword substrings, otherwise
false. -/
theorem is_ticketing_link_inclusion_after_exclusions (url : String)
    (h1 : selfRefExcluded (pyLower url) = false)
    (h2 : socialExcluded (pyLower url) = false) :
    is_ticketing_link url =
      (if strContains (pyLower url) "eventbrite" || strContains (pyLower url) "ticket"
          || strContains (pyLower url) "lu.ma" || strContains (pyLower url) "ra.co"
          || strContains (pyLower url) "razorpay.com" || strContains (pyLower url) "bookmyshow"
        then true
        else if strContains (pyLower url) "ticket" || strContains (pyLower url) "book"
            || strContains (pyLower url) "rsvp" || strContains (pyLower url) "register"
          then true
          else false) := by
  simp only [is_ticketing_link, h1, h2, Bool.false_eq_true, if_false,
    KNOWN_TICKETING_DOMAINS, TICKET_KEYWORDS, List.any_cons, List.any_nil,
    Bool.or_false, Bool.or_assoc]

/-- Witness for C2: the keyword-fallback example
`https://example.org/please-register-now` classifies as true. -/
theorem is_ticketing_link_inclusion_after_exclusions_witness :
    selfRefExcluded (pyLower "https://example.org/please-register-now") = false
    ∧ socialExcluded (pyLower "https://example.org/please-register-now") = false
    ∧ is_ticketing_link "https://example.org/please-register-now" = true :=
  ⟨by decide, by decide, by
    rw [is_ticketing_link_inclusion_after_exclusions
      "https://example.org/please-register-now" (by decide) (by decide)]
    decide⟩

/-- C3 counterexample: `https://facebook.example/tickets` contains the
substring `facebook` but classifies as true (it lacks `facebook.com`, and
`ticket` matches), contradicting the claim that any URL containing
`facebook` classifies as false. -/
theorem social_token_without_domain_classifies_true :
    strContains (pyLower "https://facebook.example/tickets") "facebook" = true
    ∧ is_ticketing_link "https://facebook.example/tickets" = true := by
  exact ⟨by decide, by decide⟩

/-- C3 amended: for every URL whose lower-cased form contains one of
`facebook.com`, `twitter.com`, `instagram.com`, `linkedin.com`, the
classifier returns false, regardless of other substrings present. -/
theorem social_domain_exclusion_wins (url : String)
    (h : strContains (pyLower url) "facebook.com" = true
      ∨ strContains (pyLower url) "twitter.com" = true
      ∨ strContains (pyLower url) "instagram.com" = true
      ∨ strContains (pyLower url) "linkedin.com" = true) :
    is_ticketing_link url = false := by
  have hs : socialExcluded (pyLower url) = true := by
    simp only [socialExcluded]
    rcases h with h | h | h | h <;> simp [h]
  simp only [is_ticketing_link, hs]
  by_cases hr : selfRefExcluded (pyLower url) <;> simp [hr]

/-- Witness for C3's amended claim: `https://facebook.com/tickets`
classifies as false despite containing `ticket`. -/
theorem social_domain_exclusion_wins_witness :
    is_ticketing_link "https://facebook.com/tickets" = false :=
  social_domain_exclusion_wins "https://facebook.com/tickets" (Or.inl (by decide))

/-- C4: any URL whose lower-cased form contains both `substack.com` and
`pintofviewclub` classifies as false; in particular the spec's example
internal cross-link does. -/
theorem self_reference_excluded :
    (∀ url : String,
      strContains (pyLower url) "substack.com" = true →
      strContains (pyLower url) "pintofviewclub" = true →
      is_ticketing_link url = false)
    ∧ is_ticketing_link "https://pintofviewclub.substack.com/p/some-other-post" = false := by
  refine ⟨fun url h1 h2 => ?_, by decide⟩
  have hr : selfRefExcluded (pyLower url) = true := by
    simp [selfRefExcluded, h1, h2]
  simp [is_ticketing_link, hr]

/-- Witness for C4: applies the universal part to the spec's example URL. -/
theorem self_reference_excluded_witness :
    is_ticketing_link "https://pintofviewclub.substack.com/p/extra" = false :=
  self_reference_excluded.1 "https://pintofviewclub.substack.com/p/extra"
    (by decide) (by decide)

/-- Non-anchor tokens contribute no href. -/
theorem anchorContribution_none_of_not_anchor (t : Tok)
    (h : isAnchorStart t = false) : anchorContribution t = none := by
  cases t with
  | startTag n a =>
    simp only [isAnchorStart] at h
    simp [anchorContribution, h]
  | endTag n => rfl
  | text s => rfl

/-! ## Claims C5, C9 -/

/-- C5 counterexample: in `<a href="">x</a>` the sole anchor element
carries an `href` attribute (with value `""`), yet `extract_links`
returns the empty sequence rather than `[""]` — the extractor's
truthiness test drops empty href values, so the output is not exactly
"the href attribute values of anchor elements". -/
theorem empty_href_anchor_dropped :
    tokenize "<a href=\"\">x</a>"
      = [Tok.startTag "a" [("href", some "")], Tok.text "x", Tok.endTag "a"]
    ∧ extract_links "<a href=\"\">x</a>" = []
    ∧ extract_links "<a href=\"\">x</a>" ≠ [""] :=
  ⟨by decide, by decide, by decide⟩

/-- C5 amended: `extractLinks` yields, in document order with duplicates
included, the value of the (last) `href` attribute of each anchor start
tag, except that anchors whose captured href is missing, valueless, or
the empty string contribute nothing; and on a fragment with zero anchor
elements the result is empty and `extractTicketLink` is absent. -/
theorem extract_links_nonempty_hrefs :
    (∀ html : String, extract_links html = anchorHrefs (tokenize html))
    ∧ (∀ html : String,
        (tokenize html).all (fun t => !(isAnchorStart t)) = true →
        extract_links html = [] ∧ extract_ticket_link html = none) := by
  refine ⟨extract_links_eq_anchorHrefs, fun html h => ?_⟩
  have he : extract_links html = [] := by
    rw [extract_links_eq_anchorHrefs]
    refine List.filterMap_eq_nil_iff.mpr fun t ht => ?_
    have := List.all_eq_true.mp h t ht
    exact anchorContribution_none_of_not_anchor t (by simpa using this)
  exact ⟨he, by simp [extract_ticket_link, he, firstTicket]⟩

/-- Witness for C5's amended claim: a fragment with no anchors yields no
links and no ticket link. -/
theorem extract_links_nonempty_hrefs_witness :
    extract_links "<p>hello</p>" = [] ∧ extract_ticket_link "<p>hello</p>" = none :=
  extract_links_nonempty_hrefs.2 "<p>hello</p>" (by decide)

/-- C9: `extract_ticket_link` is a total function of the HTML string; its
result is either absent or one of the links actually extracted from the
document (and then one that classifies as a ticket link), and on
malformed fragments it degrades to absence rather than failing. -/
theorem extract_ticket_link_total_degradation :
    (∀ html : String,
      extract_ticket_link html = none
      ∨ ∃ l, l ∈ extract_links html ∧ is_ticketing_link l = true
          ∧ extract_ticket_link html = some l)
    ∧ extract_ticket_link "<a href=\"http://t" = none
    ∧ extract_ticket_link "<a<p><a href=" = none
    ∧ extract_ticket_link "<<<>junk</" = none := by
  refine ⟨fun html => ?_, by decide, by decide, by decide⟩
  cases h : extract_ticket_link html with
  | none => exact Or.inl rfl
  | some l =>
    right
    have h' : (extract_links html).find? is_ticketing_link = some l := by
      rw [← firstTicket_eq_find]
      exact h
    exact ⟨l, List.mem_of_find?_eq_some h', List.find?_some h', rfl⟩

/-! ## Record lemmas and run inversion -/

/-- Reading back the key just assigned. -/
theorem getKey_setKey_self (st : List (String × JVal)) (k : String) (v : JVal) :
    getKey (setKey st k v) k = some v := by
  induction st with
  | nil => simp [setKey, getKey]
  | cons p rest ih =>
    obtain ⟨k', v'⟩ := p
    by_cases h : k' = k
    · simp [setKey, getKey, h]
    · simp [setKey, getKey, h, ih]

/-- Assignment leaves every other key unchanged. -/
theorem getKey_setKey_other (st : List (String × JVal)) (k k' : String) (v : JVal)
    (h : k' ≠ k) : getKey (setKey st k v) k' = getKey st k' := by
  induction st with
  | nil => simp [setKey, getKey, Ne.symm h]
  | cons p rest ih =>
    obtain ⟨k0, v0⟩ := p
    by_cases h0 : k0 = k
    · subst h0
      simp [setKey, getKey, Ne.symm h]
    · simp [setKey, getKey, h0, ih]

/-- Whenever a run writes state, the written record is the loaded record
with exactly the two tracked fields reassigned. -/
theorem runMain_saved_shape (st : List (String × JVal)) (fetch : FetchResult)
    (creds : Creds) (smtpOk : Bool) (r : RunResult) (st' : List (String × JVal))
    (hrun : runMain st fetch creds smtpOk = RunOutcome.ok r)
    (hsv : r.saved = some st') :
    ∃ cid pd, st' = savedState st cid pd := by
  cases fetch with
  | failed =>
    simp only [runMain] at hrun
    cases hrun
    simp at hsv
  | malformed =>
    simp only [runMain] at hrun
    cases hrun
    simp at hsv
  | wellFormed root =>
    simp only [runMain] at hrun
    cases h1 : xfind root "channel" with
    | none => simp only [h1] at hrun; cases hrun; simp at hsv
    | some channel =>
    simp only [h1] at hrun
    cases h2 : xfind channel "item" with
    | none => simp only [h2] at hrun; cases hrun; simp at hsv
    | some item =>
    simp only [h2] at hrun
    cases h3 : xfind item "title" with
    | none => simp only [h3] at hrun; cases hrun
    | some titleEl =>
    simp only [h3] at hrun
    cases h4 : xfind item "link" with
    | none => simp only [h4] at hrun; cases hrun
    | some linkEl =>
    simp only [h4] at hrun
    cases h5 : xfind item "pubDate" with
    | none => simp only [h5] at hrun; cases hrun
    | some pubEl =>
    simp only [h5] at hrun
    cases h6 : xfind item "guid" with
    | none => simp only [h6] at hrun; cases hrun
    | some guidEl =>
    simp only [h6] at hrun
    cases h7 : (pyTruthyJ (getKey st "last_post_id")
        && pyEqIdJ guidEl.textOf (getKey st "last_post_id")) with
    | true => simp only [h7, if_true] at hrun; cases hrun; simp at hsv
    | false =>
      simp only [h7, Bool.false_eq_true, if_false] at hrun
      cases hrun
      simp only [Option.some.injEq] at hsv
      exact ⟨guidEl.textOf, pubEl.textOf, hsv.symm⟩

/-- The run's novelty test fails exactly when the stored value is absent
or differs from the fetched (non-empty) identifier. -/
theorem newPostCond_iff (v : Option JVal) (g : String) (hg0 : g ≠ "") :
    ((pyTruthyJ v && pyEqIdJ (some g) v) = false) ↔
      (v = none ∨ v ≠ some (JVal.str g)) := by
  cases v with
  | none => simp [pyTruthyJ]
  | some jv =>
    cases jv with
    | str s =>
      by_cases hs : s = ""
      · subst hs
        simp [pyTruthyJ, pyEqIdJ, Ne.symm hg0]
      · by_cases hgs : g = s
        · subst hgs
          simp [pyTruthyJ, pyEqIdJ, hs]
        · simp [pyTruthyJ, pyEqIdJ, hs, hgs, Ne.symm hgs]
    | num n => simp [pyTruthyJ, pyEqIdJ]
    | boolV b => cases b <;> simp [pyTruthyJ, pyEqIdJ]
    | null => simp [pyTruthyJ]

/-! ## Sample data for concrete runs -/

/-- A well-formed feed item with all four required fields and a
description containing a ticketing link. -/
def sampleItem : XNode :=
  XNode.elem "item" none
    [XNode.elem "title" (some "Guest night") [],
     XNode.elem "link" (some "https://pintofviewclub.substack.com/p/guest") [],
     XNode.elem "pubDate" (some "Tue, 01 Oct 2024 10:00:00 GMT") [],
     XNode.elem "guid" (some "post-2") [],
     XNode.elem "description" (some "<a href=\"https://lu.ma/xyz\">RSVP</a>") []]

/-- The channel wrapping `sampleItem`. -/
def sampleChannel : XNode := XNode.elem "channel" none [sampleItem]

/-- A well-formed feed root. -/
def sampleRoot : XNode := XNode.elem "rss" none [sampleChannel]

/-- A feed item carrying only a guid — valid XML, malformed RSS
(corresponds to
`<rss><channel><item><guid>abc</guid></item></channel></rss>`). -/
def noTitleItem : XNode := XNode.elem "item" none [XNode.elem "guid" (some "abc") []]

/-- A feed whose single item lacks the `title` field. -/
def noTitleRoot : XNode :=
  XNode.elem "rss" none [XNode.elem "channel" none [noTitleItem]]

/-- A parsed document with no `channel` child. -/
def noChannelRoot : XNode := XNode.elem "rss" none []

/-- A channel with no `item`. -/
def noItemRoot : XNode := XNode.elem "rss" none [XNode.elem "channel" none []]

/-- No email environment variables set. -/
def noCreds : Creds := ⟨none, none, none⟩

/-- All three email environment variables set. -/
def fullCreds : Creds := ⟨some "a@b.c", some "pw", some "r@b.c"⟩

/-! ## Claims C6–C8, C10 -/

/-- C6: on a well-formed feed whose item has all four fields and a
non-empty guid (ElementTree parsing never yields empty-string text), the
run notifies and writes state exactly when the stored `last_post_id` is
absent or differs — by exact string comparison — from the fetched
identifier; with no stored identifier it always proceeds, and when the
identifiers are equal it sends no email and writes no state. -/
theorem novelty_check_iff (st : List (String × JVal))
    (root channel item titleEl linkEl pubEl guidEl : XNode) (g : String)
    (creds : Creds) (smtpOk : Bool)
    (hch : xfind root "channel" = some channel)
    (hit : xfind channel "item" = some item)
    (hti : xfind item "title" = some titleEl)
    (hlk : xfind item "link" = some linkEl)
    (hpd : xfind item "pubDate" = some pubEl)
    (hgd : xfind item "guid" = some guidEl)
    (hg : guidEl.textOf = some g)
    (hg0 : g ≠ "") :
    ∃ r, runMain st (FetchResult.wellFormed root) creds smtpOk = RunOutcome.ok r
      ∧ (r.notified ≠ none ↔
          (getKey st "last_post_id" = none ∨ getKey st "last_post_id" ≠ some (JVal.str g)))
      ∧ (r.saved ≠ none ↔
          (getKey st "last_post_id" = none ∨ getKey st "last_post_id" ≠ some (JVal.str g))) := by
  cases hc : (pyTruthyJ (getKey st "last_post_id")
      && pyEqIdJ guidEl.textOf (getKey st "last_post_id")) with
  | true =>
    have hnot : ¬(getKey st "last_post_id" = none
        ∨ getKey st "last_post_id" ≠ some (JVal.str g)) := by
      intro hR
      have hfalse := (newPostCond_iff (getKey st "last_post_id") g hg0).mpr hR
      rw [hg] at hc
      rw [hc] at hfalse
      simp at hfalse
    refine ⟨⟨none, none⟩, ?_, ?_, ?_⟩
    · simp only [runMain, hch, hit, hti, hlk, hpd, hgd]
      simp [hc]
    · simp [hnot]
    · simp [hnot]
  | false =>
    have hR : getKey st "last_post_id" = none
        ∨ getKey st "last_post_id" ≠ some (JVal.str g) := by
      refine (newPostCond_iff (getKey st "last_post_id") g hg0).mp ?_
      rw [hg] at hc
      exact hc
    refine ⟨⟨some (ticketLinkOf item, send_email creds smtpOk),
            some (savedState st guidEl.textOf pubEl.textOf)⟩, ?_, ?_, ?_⟩
    · simp only [runMain, hch, hit, hti, hlk, hpd, hgd]
      simp [hc]
    · simp [hR]
    · simp [hR]

/-- Witness for C6: with stored identifier `abc` and fetched guid
`post-2`, the run proceeds to notification and persistence. -/
theorem novelty_check_iff_witness :
    ∃ r, runMain [("last_post_id", JVal.str "abc")]
        (FetchResult.wellFormed sampleRoot) fullCreds true = RunOutcome.ok r
      ∧ (r.notified ≠ none ↔
          (getKey [("last_post_id", JVal.str "abc")] "last_post_id" = none
            ∨ getKey [("last_post_id", JVal.str "abc")] "last_post_id"
                ≠ some (JVal.str "post-2")))
      ∧ (r.saved ≠ none ↔
          (getKey [("last_post_id", JVal.str "abc")] "last_post_id" = none
            ∨ getKey [("last_post_id", JVal.str "abc")] "last_post_id"
                ≠ some (JVal.str "post-2"))) :=
  novelty_check_iff [("last_post_id", JVal.str "abc")] sampleRoot sampleChannel
    sampleItem (XNode.elem "title" (some "Guest night") [])
    (XNode.elem "link" (some "https://pintofviewclub.substack.com/p/guest") [])
    (XNode.elem "pubDate" (some "Tue, 01 Oct 2024 10:00:00 GMT") [])
    (XNode.elem "guid" (some "post-2") []) "post-2" fullCreds true
    rfl rfl rfl rfl rfl rfl rfl (by decide)

/-- C7 (code bug): fetch failure, an XML-unparseable body, a missing
channel and an empty item list all end the run cleanly with no email and
no state write; but a body that parses as XML while its item lacks the
`title` field — a malformed feed — raises an uncaught `AttributeError`
(`NoneType` has no attribute `text`), which `except ET.ParseError` does
not catch, contradicting the claim that every no-post run terminates
cleanly. -/
theorem feed_error_cases_and_missing_title_crash :
    runMain [("last_post_id", JVal.str "abc")] FetchResult.failed noCreds true
      = RunOutcome.ok ⟨none, none⟩
    ∧ runMain [("last_post_id", JVal.str "abc")] FetchResult.malformed noCreds true
      = RunOutcome.ok ⟨none, none⟩
    ∧ runMain [("last_post_id", JVal.str "abc")]
        (FetchResult.wellFormed noChannelRoot) noCreds true
      = RunOutcome.ok ⟨none, none⟩
    ∧ runMain [("last_post_id", JVal.str "abc")]
        (FetchResult.wellFormed noItemRoot) noCreds true
      = RunOutcome.ok ⟨none, none⟩
    ∧ runMain [] (FetchResult.wellFormed noTitleRoot) noCreds true
      = RunOutcome.attrError :=
  ⟨rfl, rfl, rfl, rfl, rfl⟩

/-- C8: when a new post is detected and SMTP delivery fails, the failure
is absorbed inside `send_email` (outcome `failedCaught`, no exception)
and the run still writes the new state: the saved record holds the
fetched identifier under `last_post_id` and the publish date under
`last_published_at`. -/
theorem email_failure_caught_state_saved (st : List (String × JVal))
    (root channel item titleEl linkEl pubEl guidEl : XNode) (creds : Creds)
    (hch : xfind root "channel" = some channel)
    (hit : xfind channel "item" = some item)
    (hti : xfind item "title" = some titleEl)
    (hlk : xfind item "link" = some linkEl)
    (hpd : xfind item "pubDate" = some pubEl)
    (hgd : xfind item "guid" = some guidEl)
    (hcreds : credsSet creds = true)
    (hnew : (pyTruthyJ (getKey st "last_post_id")
        && pyEqIdJ guidEl.textOf (getKey st "last_post_id")) = false) :
    runMain st (FetchResult.wellFormed root) creds false
      = RunOutcome.ok ⟨some (ticketLinkOf item, EmailOutcome.failedCaught),
          some (savedState st guidEl.textOf pubEl.textOf)⟩
    ∧ getKey (savedState st guidEl.textOf pubEl.textOf) "last_post_id"
        = some (jOfOpt guidEl.textOf)
    ∧ getKey (savedState st guidEl.textOf pubEl.textOf) "last_published_at"
        = some (jOfOpt pubEl.textOf) := by
  refine ⟨?_, ?_, ?_⟩
  · simp only [runMain, hch, hit, hti, hlk, hpd, hgd]
    simp [hnew, send_email, hcreds]
  · unfold savedState
    rw [getKey_setKey_other _ _ _ _ (by decide)]
    exact getKey_setKey_self st "last_post_id" (jOfOpt guidEl.textOf)
  · unfold savedState
    exact getKey_setKey_self _ "last_published_at" (jOfOpt pubEl.textOf)

/-- Witness for C8: a concrete new-post run with failing SMTP delivery
still stores `post-2` and its publish date. -/
theorem email_failure_caught_state_saved_witness :
    runMain [("last_post_id", JVal.str "abc")]
        (FetchResult.wellFormed sampleRoot) fullCreds false
      = RunOutcome.ok
          ⟨some (ticketLinkOf sampleItem, EmailOutcome.failedCaught),
           some (savedState [("last_post_id", JVal.str "abc")]
              (some "post-2") (some "Tue, 01 Oct 2024 10:00:00 GMT"))⟩
    ∧ getKey (savedState [("last_post_id", JVal.str "abc")]
          (some "post-2") (some "Tue, 01 Oct 2024 10:00:00 GMT")) "last_post_id"
        = some (jOfOpt (some "post-2"))
    ∧ getKey (savedState [("last_post_id", JVal.str "abc")]
          (some "post-2") (some "Tue, 01 Oct 2024 10:00:00 GMT")) "last_published_at"
        = some (jOfOpt (some "Tue, 01 Oct 2024 10:00:00 GMT")) :=
  email_failure_caught_state_saved [("last_post_id", JVal.str "abc")]
    sampleRoot sampleChannel sampleItem
    (XNode.elem "title" (some "Guest night") [])
    (XNode.elem "link" (some "https://pintofviewclub.substack.com/p/guest") [])
    (XNode.elem "pubDate" (some "Tue, 01 Oct 2024 10:00:00 GMT") [])
    (XNode.elem "guid" (some "post-2") []) fullCreds
    rfl rfl rfl rfl rfl rfl (by decide) (by decide)

/-- C10: whenever a run writes state, every key other than
`last_post_id` and `last_published_at` keeps the value it had in the
loaded record. -/
theorem run_preserves_unrelated_state_keys (st : List (String × JVal))
    (fetch : FetchResult) (creds : Creds) (smtpOk : Bool) (r : RunResult)
    (st' : List (String × JVal)) (k : String)
    (hrun : runMain st fetch creds smtpOk = RunOutcome.ok r)
    (hsv : r.saved = some st')
    (hk1 : k ≠ "last_post_id") (hk2 : k ≠ "last_published_at") :
    getKey st' k = getKey st k := by
  obtain ⟨cid, pd, rfl⟩ := runMain_saved_shape st fetch creds smtpOk r st' hrun hsv
  unfold savedState
  rw [getKey_setKey_other _ _ _ _ hk2, getKey_setKey_other _ _ _ _ hk1]

/-- Witness for C10: a concrete run that writes state preserves the
unrelated key `other`. -/
theorem run_preserves_unrelated_state_keys_witness :
    getKey (savedState [("other", JVal.num 7), ("last_post_id", JVal.str "post-1")]
        (some "post-2") (some "Tue, 01 Oct 2024 10:00:00 GMT")) "other"
      = getKey [("other", JVal.num 7), ("last_post_id", JVal.str "post-1")] "other" :=
  run_preserves_unrelated_state_keys
    [("other", JVal.num 7), ("last_post_id", JVal.str "post-1")]
    (FetchResult.wellFormed sampleRoot) fullCreds true
    ⟨some (ticketLinkOf sampleItem, EmailOutcome.sent),
     some (savedState [("other", JVal.num 7), ("last_post_id", JVal.str "post-1")]
        (some "post-2") (some "Tue, 01 Oct 2024 10:00:00 GMT"))⟩
    (savedState [("other", JVal.num 7), ("last_post_id", JVal.str "post-1")]
        (some "post-2") (some "Tue, 01 Oct 2024 10:00:00 GMT"))
    "other" (by decide) rfl (by decide) (by decide)

end SubstackWatcher
